import Mathlib

/-!
Verification of the HabitPet food-image analysis engine.

Shallow embedding of the decision core of the HabitPet repository:

* `supabase/functions/analyze_food/index.ts` — the edge function `serve`,
  its three evidence paths (label / menu / geometry), `sanitizeLabel`,
  `clampConfidence`, `calculateMacros` and `gatherMetaSources`;
* `supabase/functions/analyze_food/priors.ts` — `getPriorsForLabel`;
* `packages/forki-features/src/core/FoodAnalyzer.ts` — the client fallback
  chain `analyzeViaDirectAnalyzers`, the result normalizer `mapToResult`,
  and the lookup tables `estimateCalories` / `estimateWeight` /
  `getFoodEmoji`.

Modelling conventions:

* JavaScript numbers are modelled as exact rationals (`ℚ`).  All the
  constants appearing in the source (0.05, 2.5, ratios, Atwater factors)
  are decimal fractions, so the translation is the exact-value reading of
  the floating point code.  `NaN` is not part of the model; an absent or
  non-numeric field is `Option.none`.
* `Math.round x` is `jsRound`, i.e. `⌊x + 1/2⌋`, which matches the
  JavaScript semantics of rounding half towards positive infinity.
* JavaScript truthiness on optional numbers / strings is modelled by
  `qTruthy` / `sTruthy` (absent, `0` and `""` are falsy).
* `String.prototype.toLowerCase` is modelled on the ASCII range (the
  range every label constant of the program lives in) by `Char.toLower`;
  `trim` removes the JavaScript whitespace characters that can appear in
  these labels (space, tab, newlines, vertical tab, form feed).
* The `food_priors` table queried with `.ilike(label)` / `.maybeSingle()`
  is modelled as an association list looked up by case-insensitive string
  equality (no `%`/`_` wildcard occurs in a sanitized label).
* Network calls are suspension points: every external result is passed to
  the embedded function as an explicit `Except`/record parameter, and a
  thrown error is the `Except.error` case.
-/

attribute [local semireducible] Rat.add Rat.mul Rat.inv Rat.sub

set_option maxRecDepth 8000

namespace HabitPet

/-- Model of `Math.round`: round half towards positive infinity. -/
def jsRound (q : ℚ) : ℤ := Rat.floor (q + 1/2)

/-- Model of `Math.round(x * 10) / 10`: round to one decimal, as used for macro grams. -/
def round1 (q : ℚ) : ℚ := (jsRound (q * 10) : ℚ) / 10

/-- Model of `Math.min(Math.max(value, lo), hi)`. -/
def clampQ (value lo hi : ℚ) : ℚ := min (max value lo) hi

/-- JavaScript truthiness of an optional number (`undefined` and `0` are falsy). -/
def qTruthy : Option ℚ → Bool
  | none => false
  | some q => q != 0

/-- JavaScript truthiness of an optional string (`undefined` and `""` are falsy). -/
def sTruthy : Option String → Bool
  | none => false
  | some s => s != ""

/-! Character and string model. -/

/-- The character class `[a-zA-Z0-9]` of the extension-stripping regex. -/
def isAsciiAlnum (c : Char) : Bool :=
  (65 ≤ c.toNat && c.toNat ≤ 90) || (97 ≤ c.toNat && c.toNat ≤ 122) ||
    (48 ≤ c.toNat && c.toNat ≤ 57)

/-- The character class `[_-]` collapsed to spaces by `sanitizeLabel`. -/
def isSepChar (c : Char) : Bool := c.toNat == 95 || c.toNat == 45

/-- JavaScript `trim` whitespace (restricted to the ASCII whitespace characters). -/
def isJsSpace (c : Char) : Bool :=
  c.toNat == 32 || c.toNat == 9 || c.toNat == 10 || c.toNat == 13 ||
    c.toNat == 11 || c.toNat == 12

/-- Model of the regex replace dropping one trailing dot-plus-alnums suffix. -/
def stripExt (l : List Char) : List Char :=
  let r := l.reverse
  match r.takeWhile isAsciiAlnum, r.dropWhile isAsciiAlnum with
  | _ :: _, '.' :: rest => rest.reverse
  | _, _ => l

/-- Helper of `collapseSeps`; the flag records whether we are inside a `[_-]+` run. -/
def collapseAux : Bool → List Char → List Char
  | _, [] => []
  | inRun, c :: rest =>
    if isSepChar c then
      if inRun then collapseAux true rest else ' ' :: collapseAux true rest
    else c :: collapseAux false rest

/-- Model of the global separator replace: each maximal run of underscore or dash becomes one space. -/
def collapseSeps (l : List Char) : List Char := collapseAux false l

/-- JavaScript `trim`: drop leading and trailing whitespace. -/
def trimChars (l : List Char) : List Char :=
  (l.dropWhile isJsSpace).rdropWhile isJsSpace

/-- ASCII `toLowerCase` on a character list. -/
def toLowerChars (l : List Char) : List Char := l.map Char.toLower

/-- Model of `s.toLowerCase()`. -/
def toLowerStr (s : String) : String := String.mk (toLowerChars s.data)

/-- Model of `s.trim()`. -/
def trimStr (s : String) : String := String.mk (trimChars s.data)

/-- Function `sanitizeLabel` from `analyze_food/index.ts`: strip a trailing
file-extension-like suffix, collapse `_`/`-` runs to spaces, trim, and
lower-case; an empty result becomes the sentinel `"unknown_food"`. -/
def sanitizeLabel (s : String) : String :=
  let cleaned := trimChars (collapseSeps (stripExt s.data))
  if 0 < cleaned.length then String.mk (toLowerChars cleaned) else "unknown_food"

/-- Model of `hay.includes(needle)` on character lists (contiguous substring test). -/
def includesChars (needle : List Char) : List Char → Bool
  | [] => needle.isEmpty
  | c :: rest => List.isPrefixOf needle (c :: rest) || includesChars needle rest

/-- Model of `s.includes(sub)` for strings. -/
def includesStr (s sub : String) : Bool := includesChars sub.data s.data

/-! Macro data model. -/

/-- The `macros` payload `{proteinG, carbsG, fatG, fiberG?}`. -/
structure Macros where
  proteinG : ℚ
  carbsG : ℚ
  fatG : ℚ
  fiberG : Option ℚ := none
deriving DecidableEq

/-- Per-100 g reference values of a `food_priors` row. -/
structure PriorMacros where
  proteinPer100g : ℚ
  carbsPer100g : ℚ
  fatPer100g : ℚ
  fiberPer100g : Option ℚ := none
deriving DecidableEq

/-- A mean / standard-deviation pair. -/
structure MuSigma where
  mu : ℚ
  sigma : ℚ
deriving DecidableEq

/-- The record returned by `getPriorsForLabel` in `priors.ts`; `macros` is
present only when the row carries all three per-100 g macro columns. -/
structure FoodPriors where
  kcalPerG : MuSigma
  density : MuSigma
  macros : Option PriorMacros := none
deriving DecidableEq

/-- The `food_priors` store: association list, looked up case-insensitively
(model of `.ilike(label).maybeSingle()` for wildcard-free labels). -/
def getPriorsForLabel (store : List (String × FoodPriors)) (label : String) :
    Option FoodPriors :=
  (store.find? (fun e => toLowerStr e.1 == toLowerStr label)).map Prod.snd

/-- The fixed `{proteinRatio, carbsRatio, fatRatio}` triple chosen by the
ratio tier of `calculateMacros` from the (lower-cased) label. -/
def categoryShares (label : String) : ℚ × ℚ × ℚ :=
  let n := toLowerStr label
  if includesStr n "chicken" || includesStr n "beef" || includesStr n "fish" ||
      includesStr n "meat" then
    (3/10, 0, 1/5)
  else if includesStr n "rice" || includesStr n "pasta" || includesStr n "bread" then
    (1/10, 3/4, 3/20)
  else if includesStr n "salad" || includesStr n "vegetable" ||
      includesStr n "broccoli" then
    (1/5, 3/5, 1/5)
  else
    (3/20, 11/20, 3/10)

/-- Tier 2 of `calculateMacros`: derive macros from calories by the fixed
category ratio table (requires positive weight and calories). -/
def ratioTier (label : String) (weightGrams calories : ℚ) : Option Macros :=
  if 0 < weightGrams ∧ 0 < calories then
    let s := categoryShares label
    some { proteinG := round1 (calories * s.1 / 4)
           carbsG := round1 (calories * s.2.1 / 4)
           fatG := round1 (calories * s.2.2 / 9)
           fiberG := none }
  else none

/-- Tier 1 of `calculateMacros`: scale the per-100 g store values by
`weightGrams / 100`, rounding each field to one decimal.  The `fiberG`
field is kept only when truthy (mirroring `priors.macros.fiberPer100g ? _ : undefined`). -/
def priorsTier (m : PriorMacros) (weightGrams : ℚ) : Macros :=
  let wr := weightGrams / 100
  { proteinG := round1 (m.proteinPer100g * wr)
    carbsG := round1 (m.carbsPer100g * wr)
    fatG := round1 (m.fatPer100g * wr)
    fiberG := match m.fiberPer100g with
      | some f => if f = 0 then none else some (round1 (f * wr))
      | none => none }

/-- Function `calculateMacros` from `analyze_food/index.ts`: priors-store tier, then
ratio tier, then `undefined`. -/
def calculateMacros (store : List (String × FoodPriors)) (label : String)
    (weightGrams calories : ℚ) : Option Macros :=
  match (getPriorsForLabel store label).bind FoodPriors.macros with
  | some m =>
    if 0 < weightGrams then some (priorsTier m weightGrams)
    else ratioTier label weightGrams calories
  | none => ratioTier label weightGrams calories

/-- Function `clampConfidence` from `analyze_food/index.ts`: missing / non-numeric
becomes `0.5`, otherwise clamp into `[0, 1]`. -/
def clampConfidence : Option ℚ → ℚ
  | none => 1/2
  | some q => min 1 (max 0 q)

/-! Edge-function data model and evidence paths. -/

/-- Payload of the label path (`nutritionLabel`). -/
structure NutritionLabelInfo where
  servingSize : String
  caloriesPerServing : ℚ
  totalServings : Option ℚ := none
deriving DecidableEq

/-- Payload of the menu path (`menuItem`). -/
structure MenuItemInfo where
  restaurant : String
  itemName : String
  calories : ℚ
deriving DecidableEq

/-- The geometry-path priors carried on an item. -/
structure ItemPriors where
  kcalPerG : MuSigma
  density : MuSigma
deriving DecidableEq

/-- One `AnalyzerItem` of the edge function response. -/
structure AnalyzerItem where
  label : String
  confidence : ℚ
  calories : ℚ
  sigmaCalories : ℚ
  weightGrams : ℚ
  volumeML : ℚ
  priors : Option ItemPriors := none
  evidence : List String := []
  path : Option String := none
  nutritionLabel : Option NutritionLabelInfo := none
  menuItem : Option MenuItemInfo := none
  macros : Option Macros := none
deriving DecidableEq

/-- The edge function response body (`latencyMs` is not modelled). -/
structure AnalyzerResponse where
  items : List AnalyzerItem
  metaUsed : List String
deriving DecidableEq

/-- Result of `extractNutritionLabel` (the OCR oracle of the label path). -/
structure NutritionData where
  label : String
  confidence : ℚ
  calories : ℚ
  servingSize : String
  caloriesPerServing : ℚ
  totalServings : Option ℚ := none
deriving DecidableEq

/-- Result of `lookupRestaurantMenu` (the oracle of the menu path). -/
structure MenuData where
  restaurant : String
  itemName : String
  calories : ℚ
  confidence : ℚ
deriving DecidableEq

/-- Result of `callClassifier` (the oracle of the geometry path). -/
structure ClassifierResponse where
  label : String
  confidence : Option ℚ := none
  parentLabel : Option String := none
  densityGML : ℚ
  kcalPerG : ℚ
  source : Option String := none
  macros : Option Macros := none
  totalCalories : Option ℚ := none
  estimatedWeightG : Option ℚ := none
deriving DecidableEq

/-- The label path item construction of `serve` (`imageType === "packaged"`). -/
def labelPathItem (store : List (String × FoodPriors)) (nd : NutritionData) :
    AnalyzerItem :=
  let label := if nd.label == "" then "packaged food" else nd.label
  let calories := nd.calories
  let estimatedWeight := if 0 < calories then calories / (5/2) else 0
  { label := label
    confidence := nd.confidence
    calories := calories
    sigmaCalories := calories * (1/20)
    weightGrams := estimatedWeight
    volumeML := 0
    evidence := ["Analyzer", "OpenAI", "Label"]
    path := some "label"
    nutritionLabel := some ⟨nd.servingSize, nd.caloriesPerServing, nd.totalServings⟩
    macros := calculateMacros store label estimatedWeight calories }

/-- The menu path item construction of `serve` (`imageType === "restaurant"`
with a truthy restaurant name). -/
def menuPathItem (store : List (String × FoodPriors)) (md : MenuData) :
    AnalyzerItem :=
  let label := md.itemName
  let calories := md.calories
  let estimatedWeight := if 0 < calories then calories / (5/2) else 0
  { label := label
    confidence := md.confidence
    calories := calories
    sigmaCalories := calories * (1/10)
    weightGrams := estimatedWeight
    volumeML := 0
    evidence := ["Analyzer", "OpenAI", "Menu"]
    path := some "menu"
    menuItem := some ⟨md.restaurant, md.itemName, md.calories⟩
    macros := calculateMacros store label estimatedWeight calories }

/-- The raw (non-macro) calorie estimate of the geometry path:
`classifier.totalCalories ? Math.round(classifier.totalCalories)
: Math.round(estimatedWeight * kcalPerG)`. -/
def geometryRawCalories (c : ClassifierResponse) (estimatedWeight : ℚ) : ℤ :=
  if qTruthy c.totalCalories then
    jsRound (c.totalCalories.getD 0)
  else
    jsRound (estimatedWeight * c.kcalPerG)

/-- The geometry path item construction of `serve` (the `else` branch). -/
def geometryPathItem (store : List (String × FoodPriors))
    (c : ClassifierResponse) : AnalyzerItem :=
  let label := toLowerStr (trimStr c.label)
  let estimatedWeight : ℚ := c.estimatedWeightG.getD 180
  let macros : Option Macros :=
    match c.macros with
    | some m => some m
    | none =>
      calculateMacros store label estimatedWeight
        ((geometryRawCalories c estimatedWeight : ℤ) : ℚ)
  let totalCalories : ℚ :=
    match macros with
    | some m => ((jsRound (m.proteinG * 4 + m.carbsG * 4 + m.fatG * 9) : ℤ) : ℚ)
    | none => ((geometryRawCalories c estimatedWeight : ℤ) : ℚ)
  { label := label
    confidence := c.confidence.getD 0
    calories := totalCalories
    sigmaCalories := totalCalories * (3/20)
    weightGrams := estimatedWeight
    volumeML := 0
    priors := some { kcalPerG := ⟨c.kcalPerG, c.kcalPerG * (1/5)⟩
                     density := ⟨c.densityGML, c.densityGML * (3/20)⟩ }
    evidence := ["Analyzer", "OpenAI", "Geometry"]
    path := some "geometry"
    macros := macros }

/-- Function `gatherMetaSources` from `analyze_food/index.ts`. -/
def gatherMetaSources (c : ClassifierResponse) : List String :=
  ["supabase", if c.source == some "openai" then "openai" else "classifier"]

/-! The HTTP boundary of the edge function. -/

/-- The three image types of `detectImageType`. -/
inductive ImType where
  | packaged
  | restaurant
  | prepared
deriving DecidableEq

/-- Result of `detectImageType`. -/
structure ImageTypeResponse where
  imageType : ImType
  confidence : ℚ
  restaurantName : Option String := none
  brandName : Option String := none
deriving DecidableEq

/-- The parsed JSON request body. -/
structure AnalyzerRequest where
  imageUrl : Option String := none
  imageBase64 : Option String := none
  region : Option String := none
deriving DecidableEq

/-- An HTTP response body: either an error object or an analyzer response. -/
inductive HttpBody where
  | errBody (error : String) (details : Option String)
  | okBody (resp : AnalyzerResponse)
deriving DecidableEq

/-- An HTTP response. -/
structure HttpResponse where
  status : ℕ
  body : HttpBody
deriving DecidableEq

/-- The label path response of `serve`. -/
def labelPathResponse (store : List (String × FoodPriors)) (nd : NutritionData) :
    AnalyzerResponse :=
  ⟨[labelPathItem store nd], ["supabase", "openai"]⟩

/-- The menu path response of `serve`. -/
def menuPathResponse (store : List (String × FoodPriors)) (md : MenuData) :
    AnalyzerResponse :=
  ⟨[menuPathItem store md], ["supabase", "openai"]⟩

/-- The geometry path response of `serve`. -/
def geometryPathResponse (store : List (String × FoodPriors))
    (c : ClassifierResponse) : AnalyzerResponse :=
  ⟨[geometryPathItem store c], gatherMetaSources c⟩

/-- The edge function `serve` handler.  The request body parse and the three
network oracles are explicit `Except` parameters; a thrown error anywhere in
the `try` block is caught and becomes a 500 response. -/
def serve (store : List (String × FoodPriors))
    (body : Except String AnalyzerRequest)
    (detect : Except String ImageTypeResponse)
    (labelData : Except String NutritionData)
    (menuData : Except String MenuData)
    (classifier : Except String ClassifierResponse) : HttpResponse :=
  match body with
  | .error e => ⟨500, .errBody "Analyzer error" (some e)⟩
  | .ok req =>
    if !sTruthy req.imageUrl && !sTruthy req.imageBase64 then
      ⟨400, .errBody "Provide imageUrl or imageBase64" none⟩
    else
      match detect with
      | .error e => ⟨500, .errBody "Analyzer error" (some e)⟩
      | .ok ty =>
        if ty.imageType = ImType.packaged then
          match labelData with
          | .error e => ⟨500, .errBody "Analyzer error" (some e)⟩
          | .ok nd => ⟨200, .okBody (labelPathResponse store nd)⟩
        else if ty.imageType = ImType.restaurant ∧ sTruthy ty.restaurantName then
          match menuData with
          | .error e => ⟨500, .errBody "Analyzer error" (some e)⟩
          | .ok md => ⟨200, .okBody (menuPathResponse store md)⟩
        else
          match classifier with
          | .error e => ⟨500, .errBody "Analyzer error" (some e)⟩
          | .ok c => ⟨200, .okBody (geometryPathResponse store c)⟩

/-- Which path oracle decides a request that got past the 400 check. -/
def pathOracleOk (detect : Except String ImageTypeResponse)
    (labelData : Except String NutritionData)
    (menuData : Except String MenuData)
    (classifier : Except String ClassifierResponse) : Prop :=
  match detect with
  | .error _ => False
  | .ok ty =>
    if ty.imageType = ImType.packaged then labelData.isOk = true
    else if ty.imageType = ImType.restaurant ∧ sTruthy ty.restaurantName then
      menuData.isOk = true
    else classifier.isOk = true

/-- At least one truthy image reference is present in the request. -/
def hasImage (req : AnalyzerRequest) : Prop :=
  sTruthy req.imageUrl = true ∨ sTruthy req.imageBase64 = true

/-! Client package data model of `forki-features`. -/

/-- One `AnalyzeItem` as the client package receives it.  The TypeScript
interface declares `label`/`confidence` non-optional, but `mapToResult`
reads every field defensively (`topItem?.x ?? d`), so each field is an
`Option` here to model absent JSON data. -/
structure AnalyzeItem where
  label : Option String := none
  confidence : Option ℚ := none
  calories : Option ℚ := none
  weightGrams : Option ℚ := none
  volumeML : Option ℚ := none
  macros : Option Macros := none
deriving DecidableEq

/-- The `meta` record of an `AnalyzeOutput`. -/
structure AnalyzeMeta where
  used : Option (List String) := none
  isFallback : Option Bool := none
deriving DecidableEq

/-- The canonical backend output consumed by `mapToResult`. -/
structure AnalyzeOutput where
  items : List AnalyzeItem
  meta : Option AnalyzeMeta := none
deriving DecidableEq

/-- The user-facing `FoodAnalysisResult`. -/
structure FoodAnalysisResult where
  foodType : String
  confidence : ℚ
  calories : ℤ
  weight : ℤ
  emoji : String
  macros : Option Macros
  analyzerSource : String
  usedFallback : Bool
deriving DecidableEq

/-- The `foodCalories` lookup table of `estimateCalories`, in source order. -/
def foodCaloriesTable : List (String × ℤ) :=
  [("apple", 95), ("banana", 105), ("orange", 62), ("grape", 62),
   ("strawberry", 4), ("blueberry", 4), ("avocado", 234), ("broccoli", 55),
   ("carrot", 25), ("lettuce", 5), ("tomato", 18), ("cucumber", 16),
   ("spinach", 7), ("potato", 77), ("sweet potato", 86), ("chicken", 165),
   ("beef", 250), ("fish", 206), ("salmon", 206), ("egg", 70), ("tofu", 94),
   ("cheese", 113), ("rice", 130), ("bread", 80), ("pasta", 131),
   ("quinoa", 120), ("oats", 154), ("milk", 42), ("yogurt", 59),
   ("butter", 102), ("almond", 7), ("walnut", 49), ("peanut", 6),
   ("default", 100)]

/-- The `foodWeights` lookup table of `estimateWeight`, in source order. -/
def foodWeightsTable : List (String × ℤ) :=
  [("apple", 150), ("banana", 120), ("orange", 130), ("grape", 100),
   ("strawberry", 150), ("blueberry", 100), ("avocado", 200), ("broccoli", 100),
   ("carrot", 80), ("lettuce", 50), ("tomato", 120), ("cucumber", 100),
   ("spinach", 30), ("potato", 150), ("sweet potato", 130), ("chicken", 100),
   ("beef", 100), ("fish", 100), ("salmon", 100), ("egg", 50), ("tofu", 100),
   ("cheese", 30), ("rice", 100), ("bread", 30), ("pasta", 100),
   ("quinoa", 100), ("oats", 40), ("milk", 250), ("yogurt", 150),
   ("butter", 15), ("almond", 10), ("walnut", 10), ("peanut", 10),
   ("default", 100)]

/-- The `emojiMap` table of `getFoodEmoji`, in source order. -/
def emojiTable : List (String × String) :=
  [("apple", "🍎"), ("banana", "🍌"), ("orange", "🍊"), ("grape", "🍇"),
   ("strawberry", "🍓"), ("blueberry", "🫐"), ("avocado", "🥑"),
   ("broccoli", "🥦"), ("carrot", "🥕"), ("lettuce", "🥬"), ("tomato", "🍅"),
   ("cucumber", "🥒"), ("spinach", "🥬"), ("potato", "🥔"),
   ("sweet potato", "🍠"), ("chicken", "🍗"), ("beef", "🥩"), ("fish", "🐟"),
   ("salmon", "🐟"), ("egg", "🥚"), ("tofu", "🧈"), ("cheese", "🧀"),
   ("rice", "🍚"), ("bread", "🍞"), ("pasta", "🍝"), ("quinoa", "🌾"),
   ("oats", "🌾"), ("milk", "🥛"), ("yogurt", "🥛"), ("butter", "🧈"),
   ("almond", "🥜"), ("walnut", "🥜"), ("peanut", "🥜")]

/-- Shared lookup scheme of `estimateCalories` / `estimateWeight`: exact key
first, then a substring match in either direction, then the default. -/
def lookupFoodTable (table : List (String × ℤ)) (dflt : ℤ) (foodName : String) :
    ℤ :=
  let n := trimStr (toLowerStr foodName)
  match table.find? (fun e => e.1 == n) with
  | some e => e.2
  | none =>
    match table.find? (fun e => includesStr n e.1 || includesStr e.1 n) with
    | some e => e.2
    | none => dflt

/-- Function `estimateCalories` from `FoodAnalyzer.ts`. -/
def estimateCalories (foodName : String) : ℤ :=
  lookupFoodTable foodCaloriesTable 100 foodName

/-- Function `estimateWeight` from `FoodAnalyzer.ts`. -/
def estimateWeight (foodName : String) : ℤ :=
  lookupFoodTable foodWeightsTable 100 foodName

/-- Function `getFoodEmoji` from `FoodAnalyzer.ts` (substring loop only, no exact step). -/
def getFoodEmoji (foodName : String) : String :=
  let n := trimStr (toLowerStr foodName)
  match emojiTable.find? (fun e => includesStr n e.1 || includesStr e.1 n) with
  | some e => e.2
  | none => "🍽️"

/-- The macro rounding of `mapToResult` (one decimal; `fiberG` only if truthy). -/
def roundMacros (m : Macros) : Macros :=
  { proteinG := round1 m.proteinG
    carbsG := round1 m.carbsG
    fatG := round1 m.fatG
    fiberG := match m.fiberG with
      | some f => if f = 0 then none else some (round1 f)
      | none => none }

/-- The plausibility condition of the calorie reconciliation in
`mapToResult`: `calculatedFromMacros >= 20 && (!caloriesFromItem ||
caloriesFromItem < 20 || calculatedFromMacros > caloriesFromItem * 0.5)`. -/
def reconcilePickMacros (calculatedFromMacros : ℤ) (caloriesFromItem : Option ℤ) :
    Prop :=
  20 ≤ calculatedFromMacros ∧
    match caloriesFromItem with
    | none => True
    | some ci => ci = 0 ∨ ci < 20 ∨ (ci : ℚ) * (1/2) < (calculatedFromMacros : ℚ)

instance (s : ℤ) (ci : Option ℤ) : Decidable (reconcilePickMacros s ci) := by
  unfold reconcilePickMacros
  cases ci <;> exact inferInstance

/-- Function `mapToResult` from `FoodAnalyzer.ts`: normalize an `AnalyzeOutput` into a
`FoodAnalysisResult`, reconciling calories against the macro-derived figure. -/
def mapToResult (result : AnalyzeOutput) : FoodAnalysisResult :=
  let topItem := result.items.head?
  let foodName := (topItem.bind AnalyzeItem.label).getD "Food Item"
  let confidence := clampQ ((topItem.bind AnalyzeItem.confidence).getD (3/5)) 0 1
  let macros := (topItem.bind AnalyzeItem.macros).map roundMacros
  let calories : ℤ :=
    match macros with
    | some m =>
      let calculatedFromMacros := jsRound (m.proteinG * 4 + m.carbsG * 4 + m.fatG * 9)
      let caloriesFromItem : Option ℤ := (topItem.bind AnalyzeItem.calories).map jsRound
      if reconcilePickMacros calculatedFromMacros caloriesFromItem then
        calculatedFromMacros
      else
        caloriesFromItem.getD (estimateCalories foodName)
    | none => ((topItem.bind AnalyzeItem.calories).map jsRound).getD (estimateCalories foodName)
  let weight : ℤ :=
    ((topItem.bind AnalyzeItem.weightGrams).map jsRound).getD (estimateWeight foodName)
  let used : List String :=
    match result.meta with
    | some mt =>
      match mt.used with
      | some u => if 0 < u.length then u else ["stub"]
      | none => ["stub"]
    | none => ["stub"]
  { foodType := foodName
    confidence := confidence
    calories := calories
    weight := weight
    emoji := getFoodEmoji foodName
    macros := macros
    analyzerSource := used.headD "stub"
    usedFallback := (result.meta.bind AnalyzeMeta.isFallback).getD false }

/-! The client fallback chain. -/

/-- The observed behaviour of one backend of the chain: a successful
`analyze` result or a thrown error message (a `resolveAnalyzer` credential
error counts as the latter). -/
inductive BackendResult where
  | ok (out : AnalyzeOutput)
  | err (msg : String)
deriving DecidableEq

/-- Did this backend fail? -/
def BackendResult.isErr : BackendResult → Bool
  | .ok _ => false
  | .err _ => true

/-- JavaScript `opt || dflt` on an optional string: absent and the empty
string are both falsy, as in `lastError?.message || "Unknown error"`. -/
def strOrElse (o : Option String) (dflt : String) : String :=
  match o with
  | some s => if s = "" then dflt else s
  | none => dflt

/-- The loop of `analyzeViaDirectAnalyzers`: try each backend in order,
recording every attempt (successes and failures) in `used`. -/
def runChain : List (String × BackendResult) → List String → Option String →
    Except String AnalyzeOutput
  | [], _, lastErr =>
    Except.error ("All analyzers failed. Last error: " ++ strOrElse lastErr "Unknown error")
  | (id, r) :: rest, used, _ =>
    match r with
    | .ok out =>
      let usedAll := used ++ [id]
      Except.ok { out with
        meta := some { used := some usedAll
                       isFallback := some (decide (1 < usedAll.length)) } }
    | .err m => runChain rest (used ++ [id]) (some m)

/-- Function `analyzeViaDirectAnalyzers` from `FoodAnalyzer.ts`, over an explicit
chain of backend behaviours. -/
def analyzeViaDirectAnalyzers (chain : List (String × BackendResult)) :
    Except String AnalyzeOutput :=
  runChain chain [] none

/-! Concrete inputs used by the per-claim witnesses and counterexamples. -/

/-- Example item of the reconciliation witness: macros 30 g / 0 g / 20 g with a
raw calorie figure of 100 (scenario C of the specification). -/
def c1Item : AnalyzeItem :=
  { label := some "beef stew", confidence := some (9/10), calories := some 100,
    macros := some { proteinG := 30, carbsG := 0, fatG := 20 } }

/-- Example output wrapping `c1Item`. -/
def c1Out : AnalyzeOutput := { items := [c1Item] }

/-- Classifier result whose macro sum (17 kcal) is below the plausibility
floor while a raw total of 100 kcal is available. -/
def c1Geo : ClassifierResponse :=
  { label := "stew", densityGML := 1, kcalPerG := 2,
    macros := some { proteinG := 1, carbsG := 1, fatG := 1 },
    totalCalories := some 100 }

/-- Chain of the fallback witness: two failing backends, then the stub. -/
def c2Chain : List (String × BackendResult) :=
  [("supabase", .err "Supabase credentials not configured"),
   ("openai", .err "OpenAI API key not configured"),
   ("stub", .ok { items := [] })]

/-- The output produced by running `c2Chain`. -/
def c2Out : AnalyzeOutput :=
  { items := [],
    meta := some { used := some ["supabase", "openai", "stub"], isFallback := some true } }

/-- Chain in which every backend fails. -/
def c2FailChain : List (String × BackendResult) :=
  [("supabase", .err "Supabase credentials not configured"),
   ("openai", .err "OpenAI request failed")]

/-- Chain in which every backend fails and the last error message is empty. -/
def c2EmptyMsgChain : List (String × BackendResult) :=
  [("supabase", .err "Supabase credentials not configured"),
   ("openai", .err "")]

/-- Store row for chicken breast carrying per-100 g macro data. -/
def c3Priors : FoodPriors :=
  { kcalPerG := ⟨33/20, 1/5⟩, density := ⟨1, 3/20⟩,
    macros := some { proteinPer100g := 31, carbsPer100g := 0, fatPer100g := 36/10 } }

/-- Store of the priors-tier witness. -/
def c3Store : List (String × FoodPriors) := [("chicken breast", c3Priors)]

/-- Store row that exists but carries no per-100 g macro columns. -/
def c3BarePriors : FoodPriors :=
  { kcalPerG := ⟨2, 1/5⟩, density := ⟨1, 3/20⟩, macros := none }

/-- Store of the tier-ordering counterexample. -/
def c3BareStore : List (String × FoodPriors) := [("mystery stew", c3BarePriors)]

/-- Output with no items, used by the confidence witness. -/
def c6Out : AnalyzeOutput := { items := [] }

/-- Request whose `imageUrl` key is present but holds the empty string. -/
def c8Req : AnalyzerRequest := { imageUrl := some "" }

/-- Request holding a nonempty image URL. -/
def c8GoodReq : AnalyzerRequest := { imageUrl := some "https://example.com/food.jpg" }

/-- Image-type oracle answering `packaged`. -/
def c8Detect : Except String ImageTypeResponse :=
  .ok { imageType := .packaged, confidence := 9/10 }

/-- Nutrition-label oracle of the HTTP witness. -/
def c8Nutrition : Except String NutritionData :=
  .ok { label := "cereal", confidence := 4/5, calories := 220, servingSize := "28g",
        caloriesPerServing := 110, totalServings := some 2 }

/-- Classifier result of the geometry witness: macro sum 17 kcal, raw 100 kcal. -/
def c9Classifier : ClassifierResponse :=
  { label := "Beef Stew", densityGML := 1, kcalPerG := 2, confidence := some (7/10),
    macros := some { proteinG := 1, carbsG := 1, fatG := 1 },
    totalCalories := some 100, estimatedWeightG := some 250 }

/-- Predicate of claim C10: `meta.used` is missing or empty. -/
def metaUsedEmpty : Option AnalyzeMeta → Prop
  | none => True
  | some mt => mt.used = none ∨ mt.used = some []

/-! Helper lemmas about the character-level string model. -/

/-- Character arithmetic: `Char.ofNat` of a valid scalar keeps its value. -/
theorem toNat_ofNat_valid (n : Nat) (h : n < 55296) : (Char.ofNat n).toNat = n := by
  simp only [Char.ofNat, Nat.isValidChar, Char.toNat, Char.ofNatAux, UInt32.ofNat',
    dif_pos (Or.inl h)]
  simp [UInt32.toNat, BitVec.toNat_ofNatLt]

/-- Unfolding equation of `Char.toLower`. -/
theorem toLower_eq (c : Char) :
    Char.toLower c = if 65 ≤ c.toNat ∧ c.toNat ≤ 90 then Char.ofNat (c.toNat + 32) else c := rfl

/-- Lower-casing an upper-case ASCII letter adds 32 to its scalar value. -/
theorem toNat_toLower_of_upper (c : Char) (h : 65 ≤ c.toNat ∧ c.toNat ≤ 90) :
    (Char.toLower c).toNat = c.toNat + 32 := by
  rw [toLower_eq, if_pos h, toNat_ofNat_valid]
  omega

/-- ASCII lower-casing is idempotent on characters. -/
theorem toLower_idem (c : Char) : Char.toLower (Char.toLower c) = Char.toLower c := by
  by_cases h : 65 ≤ c.toNat ∧ c.toNat ≤ 90
  · rw [toLower_eq (Char.toLower c), if_neg]
    rw [toNat_toLower_of_upper c h]
    omega
  · rw [toLower_eq c, if_neg h, toLower_eq c, if_neg h]

/-- Lower-casing does not change whether a character is JavaScript whitespace. -/
theorem isJsSpace_toLower (c : Char) : isJsSpace (Char.toLower c) = isJsSpace c := by
  by_cases h : 65 ≤ c.toNat ∧ c.toNat ≤ 90
  · have h2 := toNat_toLower_of_upper c h
    have hL : isJsSpace (Char.toLower c) = false := by
      simp only [isJsSpace, h2, Bool.or_eq_false_iff, beq_eq_false_iff_ne, ne_eq]
      omega
    have hR : isJsSpace c = false := by
      simp only [isJsSpace, Bool.or_eq_false_iff, beq_eq_false_iff_ne, ne_eq]
      omega
    rw [hL, hR]
  · rw [toLower_eq, if_neg h]

/-- Lower-casing does not change whether a character is an underscore or dash. -/
theorem isSepChar_toLower (c : Char) : isSepChar (Char.toLower c) = isSepChar c := by
  by_cases h : 65 ≤ c.toNat ∧ c.toNat ≤ 90
  · have h2 := toNat_toLower_of_upper c h
    have hL : isSepChar (Char.toLower c) = false := by
      simp only [isSepChar, h2, Bool.or_eq_false_iff, beq_eq_false_iff_ne, ne_eq]
      omega
    have hR : isSepChar c = false := by
      simp only [isSepChar, Bool.or_eq_false_iff, beq_eq_false_iff_ne, ne_eq]
      omega
    rw [hL, hR]
  · rw [toLower_eq, if_neg h]

/-- Members of a collapsed list are never separators. -/
theorem mem_collapseAux_not_sep (l : List Char) :
    ∀ b c, c ∈ collapseAux b l → isSepChar c = false := by
  induction l with
  | nil =>
    intro b c h
    simp [collapseAux] at h
  | cons a rest ih =>
    intro b c h
    by_cases ha : isSepChar a = true
    · rw [collapseAux, if_pos ha] at h
      cases b with
      | true => exact ih true c h
      | false =>
        rcases List.mem_cons.mp h with rfl | hm
        · decide
        · exact ih true c hm
    · rw [collapseAux, if_neg ha] at h
      rcases List.mem_cons.mp h with rfl | hm
      · exact Bool.not_eq_true _ ▸ Bool.eq_false_iff.mpr ha
      · exact ih false c hm

/-- Members of `collapseSeps` output are never separators. -/
theorem mem_collapseSeps_not_sep (l : List Char) (c : Char)
    (h : c ∈ collapseSeps l) : isSepChar c = false :=
  mem_collapseAux_not_sep l false c h

/-- Collapsing a separator-free list is the identity. -/
theorem collapseAux_eq_self (l : List Char) (hl : ∀ c ∈ l, isSepChar c = false) :
    ∀ b, collapseAux b l = l := by
  induction l with
  | nil => intro b; rfl
  | cons a rest ih =>
    intro b
    have ha : isSepChar a = false := hl a (List.mem_cons_self a rest)
    rw [collapseAux, if_neg (by rw [ha]; exact Bool.false_ne_true)]
    rw [ih (fun c hc => hl c (List.mem_cons_of_mem a hc)) false]

/-- Collapsing a separator-free list with `collapseSeps` is the identity. -/
theorem collapseSeps_eq_self (l : List Char) (hl : ∀ c ∈ l, isSepChar c = false) :
    collapseSeps l = l :=
  collapseAux_eq_self l hl false

/-- A prefix of a list already stripped of its leading matches is itself stripped. -/
theorem isPrefix_dropWhile_eq_self (p : Char → Bool) (A B : List Char)
    (hA : A.dropWhile p = A) (hBA : B <+: A) : B.dropWhile p = B := by
  cases B with
  | nil => rfl
  | cons b bs =>
    cases A with
    | nil =>
      have : b :: bs = ([] : List Char) := List.prefix_nil.mp hBA
      exact absurd this (by simp)
    | cons a as =>
      have hba := ( List.cons_prefix_cons.mp hBA).1
      by_cases hpa : p a = true
      · exfalso
        rw [List.dropWhile_cons, if_pos hpa] at hA
        have hlen := congrArg List.length hA
        have hle : (as.dropWhile p).length ≤ as.length :=
          (List.dropWhile_suffix p).sublist.length_le
        simp only [List.length_cons] at hlen
        omega
      · rw [hba, List.dropWhile_cons, if_neg hpa]

/-- Leading whitespace removal is stable on trimmed lists. -/
theorem trimChars_noLead (l : List Char) :
    (trimChars l).dropWhile isJsSpace = trimChars l := by
  apply isPrefix_dropWhile_eq_self isJsSpace (l.dropWhile isJsSpace)
  · exact List.dropWhile_idempotent _ _
  · exact List.rdropWhile_prefix _ _

/-- Trailing whitespace removal is stable on trimmed lists. -/
theorem trimChars_noTail (l : List Char) :
    (trimChars l).rdropWhile isJsSpace = trimChars l :=
  List.rdropWhile_idempotent _ _

/-- Trimming is idempotent. -/
theorem trimChars_idem (l : List Char) : trimChars (trimChars l) = trimChars l := by
  show ((trimChars l).dropWhile isJsSpace).rdropWhile isJsSpace = trimChars l
  rw [trimChars_noLead l]
  exact trimChars_noTail l

/-- Lower-casing is idempotent on character lists. -/
theorem toLowerChars_idem (l : List Char) :
    toLowerChars (toLowerChars l) = toLowerChars l := by
  unfold toLowerChars
  rw [List.map_map]
  exact List.map_congr_left (fun c _ => toLower_idem c)

/-- Composing the whitespace test with lower-casing changes nothing. -/
theorem isJsSpace_comp_toLower : (isJsSpace ∘ Char.toLower) = isJsSpace :=
  funext fun c => isJsSpace_toLower c

/-- Leading whitespace removal commutes with lower-casing. -/
theorem dropWhile_toLowerChars (l : List Char) :
    (toLowerChars l).dropWhile isJsSpace = toLowerChars (l.dropWhile isJsSpace) := by
  unfold toLowerChars
  rw [List.dropWhile_map, isJsSpace_comp_toLower]

/-- Trailing whitespace removal commutes with lower-casing. -/
theorem rdropWhile_toLowerChars (l : List Char) :
    (toLowerChars l).rdropWhile isJsSpace = toLowerChars (l.rdropWhile isJsSpace) := by
  unfold List.rdropWhile toLowerChars
  rw [← List.map_reverse, List.dropWhile_map, isJsSpace_comp_toLower, List.map_reverse]

/-- Trimming commutes with lower-casing. -/
theorem trimChars_toLowerChars (l : List Char) :
    trimChars (toLowerChars l) = toLowerChars (trimChars l) := by
  unfold trimChars
  rw [dropWhile_toLowerChars, rdropWhile_toLowerChars]

/-- Members of a trimmed list are members of the original list. -/
theorem mem_trimChars (l : List Char) (c : Char) (h : c ∈ trimChars l) : c ∈ l := by
  have h1 : trimChars l <+: l.dropWhile isJsSpace := List.rdropWhile_prefix _ _
  have h2 := h1.sublist.subset h
  exact (List.dropWhile_sublist isJsSpace).subset h2

/-- Unfolding equation of `sanitizeLabel` on an explicit character list. -/
theorem sanitizeLabel_mk (l : List Char) :
    sanitizeLabel (String.mk l) =
      (if 0 < (trimChars (collapseSeps (stripExt l))).length
       then String.mk (toLowerChars (trimChars (collapseSeps (stripExt l))))
       else "unknown_food") := rfl

/-! Claim C7: idempotence of label sanitization. -/

/-- Claim C7 (counterexample): sanitization is not idempotent as stated.  The
empty string sanitizes to the sentinel `"unknown_food"`, whose own
sanitization collapses the underscore and yields `"unknown food"`. -/
theorem sanitize_idempotent_counterexample :
    sanitizeLabel (sanitizeLabel "") ≠ sanitizeLabel "" := by decide

/-- Claim C7 (amended): label sanitization is idempotent on every string whose
sanitized form neither still ends in a file-extension-like suffix (so the
extension-stripping pass fires again) nor is the sentinel `"unknown_food"`
(whose underscore would be collapsed by a second pass). -/
theorem sanitize_idempotent_amended (s : String)
    (hext : stripExt (sanitizeLabel s).data = (sanitizeLabel s).data)
    (hsent : sanitizeLabel s ≠ "unknown_food") :
    sanitizeLabel (sanitizeLabel s) = sanitizeLabel s := by
  by_cases hlen : 0 < (trimChars (collapseSeps (stripExt s.data))).length
  case neg =>
    exfalso
    apply hsent
    show sanitizeLabel (String.mk s.data) = _
    rw [sanitizeLabel_mk, if_neg hlen]
  case pos =>
    have hs : sanitizeLabel s =
        String.mk (toLowerChars (trimChars (collapseSeps (stripExt s.data)))) := by
      show sanitizeLabel (String.mk s.data) = _
      rw [sanitizeLabel_mk, if_pos hlen]
    rw [hs] at hext
    have hnosep : ∀ c ∈ toLowerChars (trimChars (collapseSeps (stripExt s.data))),
        isSepChar c = false := by
      intro c hc
      rcases List.mem_map.mp hc with ⟨a, ha, rfl⟩
      rw [isSepChar_toLower]
      exact mem_collapseSeps_not_sep _ a (mem_trimChars _ a ha)
    have hcoll : collapseSeps (toLowerChars (trimChars (collapseSeps (stripExt s.data)))) =
        toLowerChars (trimChars (collapseSeps (stripExt s.data))) :=
      collapseSeps_eq_self _ hnosep
    have htrim : trimChars (toLowerChars (trimChars (collapseSeps (stripExt s.data)))) =
        toLowerChars (trimChars (collapseSeps (stripExt s.data))) := by
      rw [trimChars_toLowerChars, trimChars_idem]
    have hlen2 : 0 < (toLowerChars (trimChars (collapseSeps (stripExt s.data)))).length := by
      unfold toLowerChars
      rw [List.length_map]
      exact hlen
    rw [hs, sanitizeLabel_mk, hext, hcoll, htrim, if_pos hlen2, toLowerChars_idem]

/-- Claim C7 (witness): a concrete sanitized label that is a fixed point. -/
theorem sanitize_idempotent_amended_witness :
    sanitizeLabel (sanitizeLabel "Grilled_Chicken") = sanitizeLabel "Grilled_Chicken" :=
  sanitize_idempotent_amended "Grilled_Chicken" (by decide) (by decide)

/-! Claim C4: the ratio-tier macro table. -/

/-- The four possible ratio triples, by case analysis on the label category. -/
theorem categoryShares_cases (label : String) :
    categoryShares label = (3/10, 0, 1/5) ∨ categoryShares label = (1/10, 3/4, 3/20) ∨
      categoryShares label = (1/5, 3/5, 1/5) ∨ categoryShares label = (3/20, 11/20, 3/10) := by
  simp only [categoryShares]
  split
  · exact Or.inl rfl
  · split
    · exact Or.inr (Or.inl rfl)
    · split
      · exact Or.inr (Or.inr (Or.inl rfl))
      · exact Or.inr (Or.inr (Or.inr rfl))

/-- Claim C4 (counterexample): the protein-dominant triple does not sum to 1.
For the label `"chicken"` the chosen triple is `{0.30, 0.00, 0.20}`, summing
to 0.5. -/
theorem ratio_table_counterexample :
    categoryShares "chicken" = (3/10, 0, 1/5) ∧
      (categoryShares "chicken").1 + (categoryShares "chicken").2.1 +
        (categoryShares "chicken").2.2 ≠ 1 := by decide

/-- Claim C4 (amended): the ratio tier computes
`proteinG = round1(calories * proteinRatio / 4)`,
`carbsG = round1(calories * carbsRatio / 4)` and
`fatG = round1(calories * fatRatio / 9)`; the carb-dominant, produce and
default triples sum to 1, while the protein-dominant triple
`{0.30, 0.00, 0.20}` sums to 0.5. -/
theorem ratio_tier_table (label : String) (w cal : ℚ) (hw : 0 < w) (hcal : 0 < cal) :
    ratioTier label w cal =
      some { proteinG := round1 (cal * (categoryShares label).1 / 4)
             carbsG := round1 (cal * (categoryShares label).2.1 / 4)
             fatG := round1 (cal * (categoryShares label).2.2 / 9)
             fiberG := none } ∧
    ((categoryShares label).1 + (categoryShares label).2.1 + (categoryShares label).2.2 = 1 ∨
      (categoryShares label = (3/10, 0, 1/5) ∧
        (categoryShares label).1 + (categoryShares label).2.1 +
          (categoryShares label).2.2 = 1/2)) := by
  constructor
  · simp only [ratioTier]
    rw [if_pos ⟨hw, hcal⟩]
  · rcases categoryShares_cases label with h | h | h | h
    · exact Or.inr ⟨h, by rw [h]; decide⟩
    · exact Or.inl (by rw [h]; decide)
    · exact Or.inl (by rw [h]; decide)
    · exact Or.inl (by rw [h]; decide)

/-- Claim C4 (witness): scenario E of the specification, label
`"chicken breast"` with 231 kcal gives `proteinG = 17.3`. -/
theorem ratio_tier_table_witness :
    ratioTier "chicken breast" 150 231 =
      some { proteinG := 173/10, carbsG := 0, fatG := 51/10, fiberG := none } := by
  have h := ratio_tier_table "chicken breast" 150 231 (by decide) (by decide)
  exact h.1.trans (by decide)

/-! Claim C5: path-keyed relative uncertainty. -/

/-- Claim C5: every item built by the label, menu and geometry paths carries
`sigmaCalories` equal to its own `calories` times 0.05, 0.10 and 0.15
respectively. -/
theorem sigma_calories_by_path (store : List (String × FoodPriors))
    (nd : NutritionData) (md : MenuData) (c : ClassifierResponse) :
    (labelPathItem store nd).sigmaCalories = (labelPathItem store nd).calories * (1/20) ∧
    (labelPathItem store nd).path = some "label" ∧
    (menuPathItem store md).sigmaCalories = (menuPathItem store md).calories * (1/10) ∧
    (menuPathItem store md).path = some "menu" ∧
    (geometryPathItem store c).sigmaCalories = (geometryPathItem store c).calories * (3/20) ∧
    (geometryPathItem store c).path = some "geometry" :=
  ⟨rfl, rfl, rfl, rfl, rfl, rfl⟩

/-! Claim C6: confidence normalization. -/

/-- Claim C6 (counterexample): the edge function default for a missing or
invalid confidence is 0.5, not 0.6. -/
theorem confidence_default_counterexample :
    clampConfidence none = 1/2 ∧ clampConfidence none ≠ 3/5 := by decide

/-- Claim C6 (amended): both normalizers keep confidence inside `[0, 1]` and
clamp out-of-range values; a missing confidence defaults to 0.6 in the client
`mapToResult` but to 0.5 in the edge function `clampConfidence`. -/
theorem confidence_normalization (v : Option ℚ) (out : AnalyzeOutput) :
    (0 ≤ clampConfidence v ∧ clampConfidence v ≤ 1) ∧
    (v = none → clampConfidence v = 1/2) ∧
    (∀ q, v = some q → 0 ≤ q → q ≤ 1 → clampConfidence v = q) ∧
    (∀ q, v = some q → q < 0 → clampConfidence v = 0) ∧
    (∀ q, v = some q → 1 < q → clampConfidence v = 1) ∧
    (0 ≤ (mapToResult out).confidence ∧ (mapToResult out).confidence ≤ 1) ∧
    ((out.items.head?.bind AnalyzeItem.confidence) = none →
      (mapToResult out).confidence = 3/5) := by
  refine ⟨?_, ?_, ?_, ?_, ?_, ?_, ?_⟩
  · cases v with
    | none => constructor <;> norm_num [clampConfidence]
    | some q =>
      constructor
      · exact le_min (by norm_num) (le_max_left 0 q)
      · exact min_le_left 1 (max 0 q)
  · intro h
    rw [h]
    decide
  · intro q hq h0 h1
    rw [hq]
    show min 1 (max 0 q) = q
    rw [max_eq_right h0, min_eq_right h1]
  · intro q hq hneg
    rw [hq]
    show min 1 (max 0 q) = 0
    rw [max_eq_left (le_of_lt hneg)]
    norm_num
  · intro q hq h1
    rw [hq]
    show min 1 (max 0 q) = 1
    rw [max_eq_right (le_of_lt (lt_trans one_pos h1)), min_eq_left (le_of_lt h1)]
  · have hc : (mapToResult out).confidence =
        clampQ ((out.items.head?.bind AnalyzeItem.confidence).getD (3/5)) 0 1 := rfl
    rw [hc]
    constructor
    · exact le_min (le_max_right _ 0) (by norm_num)
    · exact min_le_right _ 1
  · intro h
    have hc : (mapToResult out).confidence =
        clampQ ((out.items.head?.bind AnalyzeItem.confidence).getD (3/5)) 0 1 := rfl
    rw [hc, h]
    decide

/-- Claim C6 (witness): an out-of-range confidence is clamped to 1, and a
missing one defaults to 0.6 downstream of `mapToResult`. -/
theorem confidence_normalization_witness :
    clampConfidence (some 2) = 1 ∧ (mapToResult c6Out).confidence = 3/5 := by
  constructor
  · exact (confidence_normalization (some 2) c6Out).2.2.2.2.1 2 rfl (by decide)
  · exact (confidence_normalization (some 2) c6Out).2.2.2.2.2.2 rfl

/-! Claim C1: the calorie reconciliation policy. -/

/-- Claim C1 (counterexample): the geometry path of the edge function applies
the macro-derived figure unconditionally.  With macros 1 g / 1 g / 1 g the
macro sum is 17 kcal, below the 20 kcal plausibility floor, and a raw figure
of 100 kcal is available; the claim then demands 100, but the code returns
17. -/
theorem calorie_reconciliation_counterexample :
    (geometryPathItem [] c1Geo).macros =
      some { proteinG := 1, carbsG := 1, fatG := 1, fiberG := none } ∧
    c1Geo.totalCalories = some 100 ∧
    jsRound ((1 : ℚ) * 4 + 1 * 4 + 1 * 9) = 17 ∧
    ¬(20 ≤ (17 : ℤ)) ∧
    (geometryPathItem [] c1Geo).calories = 17 ∧
    (geometryPathItem [] c1Geo).calories ≠ 100 := by decide

/-- Claim C1 (amended): in the client normalizer `mapToResult`, an item
carrying macros is reconciled to `round(proteinG*4 + carbsG*4 + fatG*9)`
exactly when that sum is at least 20 and the raw figure is absent, below 20,
or less than twice the sum; in every other case the raw path calories are
used, with the static per-label table only when the raw figure is absent.
(The geometry path of the edge function instead uses the macro sum
unconditionally; see the counterexample.) -/
theorem calorie_reconciliation_policy (out : AnalyzeOutput) (item : AnalyzeItem)
    (m : Macros)
    (hitem : out.items.head? = some item)
    (hm : item.macros = some m)
    (hp : round1 m.proteinG = m.proteinG)
    (hc : round1 m.carbsG = m.carbsG)
    (hf : round1 m.fatG = m.fatG) :
    (reconcilePickMacros (jsRound (m.proteinG * 4 + m.carbsG * 4 + m.fatG * 9))
        (item.calories.map jsRound) →
      (mapToResult out).calories = jsRound (m.proteinG * 4 + m.carbsG * 4 + m.fatG * 9)) ∧
    (¬reconcilePickMacros (jsRound (m.proteinG * 4 + m.carbsG * 4 + m.fatG * 9))
        (item.calories.map jsRound) →
      (mapToResult out).calories =
        (item.calories.map jsRound).getD (estimateCalories (item.label.getD "Food Item"))) := by
  have hcal : (mapToResult out).calories =
      (if reconcilePickMacros
            (jsRound ((roundMacros m).proteinG * 4 + (roundMacros m).carbsG * 4 +
              (roundMacros m).fatG * 9))
            (item.calories.map jsRound) then
        jsRound ((roundMacros m).proteinG * 4 + (roundMacros m).carbsG * 4 +
          (roundMacros m).fatG * 9)
      else
        (item.calories.map jsRound).getD (estimateCalories (item.label.getD "Food Item"))) := by
    simp only [mapToResult, hitem, Option.some_bind, hm, Option.map_some]
    rfl
  have hr : (roundMacros m).proteinG = m.proteinG := hp
  have hr2 : (roundMacros m).carbsG = m.carbsG := hc
  have hr3 : (roundMacros m).fatG = m.fatG := hf
  rw [hr, hr2, hr3] at hcal
  constructor
  · intro h
    rw [hcal, if_pos h]
  · intro h
    rw [hcal, if_neg h]

/-- Claim C1 (witness): scenario C of the specification.  Macros
30 g / 0 g / 20 g give 300 kcal, the raw figure is 100 kcal, and since
300 is at least 20 and 100 is less than twice 300 the reconciled value is
300, not 100. -/
theorem calorie_reconciliation_policy_witness :
    (mapToResult c1Out).calories = 300 := by
  have h := calorie_reconciliation_policy c1Out c1Item
    { proteinG := 30, carbsG := 0, fatG := 20 } rfl rfl (by decide) (by decide) (by decide)
  exact (h.1 (by decide)).trans (by decide)

/-! Claim C3: priors-store tier precedence in the macro calculator. -/

/-- Claim C3 (counterexample): a label can exist in the food-priors store
while its row carries no per-100 g macro columns; the calculator then falls
through to the ratio tier even though the label is present and the weight is
positive. -/
theorem tier_ordering_counterexample :
    (getPriorsForLabel c3BareStore "mystery stew").isSome = true ∧
    (getPriorsForLabel c3BareStore "mystery stew").bind FoodPriors.macros = none ∧
    calculateMacros c3BareStore "mystery stew" 150 231 =
      ratioTier "mystery stew" 150 231 ∧
    ratioTier "mystery stew" 150 231 =
      some { proteinG := round1 (231 * (3/20) / 4), carbsG := round1 (231 * (11/20) / 4),
             fatG := round1 (231 * (3/10) / 9), fiberG := none } := by decide

/-- Claim C3 (amended): for every label whose case-insensitive food-priors
entry carries per-100 g macro data and every positive weight, the macro
calculator returns the priors-tier values — each per-100 g field scaled by
`weightGrams / 100` and rounded to one decimal — never the ratio tier. -/
theorem priors_tier_precedence (store : List (String × FoodPriors)) (label : String)
    (w cal : ℚ) (fp : FoodPriors) (m : PriorMacros)
    (hfind : getPriorsForLabel store label = some fp)
    (hmac : fp.macros = some m)
    (hw : 0 < w) :
    calculateMacros store label w cal =
      some { proteinG := round1 (m.proteinPer100g * (w / 100))
             carbsG := round1 (m.carbsPer100g * (w / 100))
             fatG := round1 (m.fatPer100g * (w / 100))
             fiberG := match m.fiberPer100g with
               | some f => if f = 0 then none else some (round1 (f * (w / 100)))
               | none => none } := by
  unfold calculateMacros
  rw [hfind, Option.some_bind, hmac]
  show (if 0 < w then some (priorsTier m w) else ratioTier label w cal) = _
  rw [if_pos hw]
  rfl

/-- Claim C3 (witness): the chicken-breast store row scaled to 150 g. -/
theorem priors_tier_precedence_witness :
    calculateMacros c3Store "Chicken Breast" 150 231 =
      some { proteinG := 93/2, carbsG := 0, fatG := 27/5, fiberG := none } := by
  have h := priors_tier_precedence c3Store "Chicken Breast" 150 231 c3Priors
    { proteinPer100g := 31, carbsPer100g := 0, fatPer100g := 36/10 }
    (by decide) rfl (by decide)
  exact h.trans (by decide)

/-! Claim C9: the geometry path uses the macro sum unconditionally. -/

/-- Claim C9: in the geometry path, whenever macros are available (from the
classifier or computed by the macro calculator) the item calories equal
`round(proteinG*4 + carbsG*4 + fatG*9)` with no plausibility check, and the
raw estimate (classifier total, or weight times energy density) is used only
when macros are absent. -/
theorem geometry_macros_unconditional (store : List (String × FoodPriors))
    (c : ClassifierResponse) :
    (∀ m, (geometryPathItem store c).macros = some m →
      (geometryPathItem store c).calories =
        ((jsRound (m.proteinG * 4 + m.carbsG * 4 + m.fatG * 9) : ℤ) : ℚ)) ∧
    ((geometryPathItem store c).macros = none →
      (geometryPathItem store c).calories =
        ((geometryRawCalories c (c.estimatedWeightG.getD 180) : ℤ) : ℚ)) ∧
    (∀ m, c.macros = some m → (geometryPathItem store c).macros = some m) ∧
    (c.macros = none → (geometryPathItem store c).macros =
      calculateMacros store (toLowerStr (trimStr c.label)) (c.estimatedWeightG.getD 180)
        ((geometryRawCalories c (c.estimatedWeightG.getD 180) : ℤ) : ℚ)) := by
  have hcal : (geometryPathItem store c).calories =
      (match (geometryPathItem store c).macros with
       | some m => ((jsRound (m.proteinG * 4 + m.carbsG * 4 + m.fatG * 9) : ℤ) : ℚ)
       | none => ((geometryRawCalories c (c.estimatedWeightG.getD 180) : ℤ) : ℚ)) := rfl
  refine ⟨?_, ?_, ?_, ?_⟩
  · intro m hm
    rw [hcal, hm]
  · intro hm
    rw [hcal, hm]
  · intro m hm
    show (match c.macros with
          | some mm => some mm
          | none => calculateMacros store (toLowerStr (trimStr c.label))
              (c.estimatedWeightG.getD 180)
              ((geometryRawCalories c (c.estimatedWeightG.getD 180) : ℤ) : ℚ)) = some m
    rw [hm]
  · intro hm
    show (match c.macros with
          | some mm => some mm
          | none => calculateMacros store (toLowerStr (trimStr c.label))
              (c.estimatedWeightG.getD 180)
              ((geometryRawCalories c (c.estimatedWeightG.getD 180) : ℤ) : ℚ)) = _
    rw [hm]

/-- Claim C9 (witness): classifier macros 1 g / 1 g / 1 g with a raw total of
100 kcal yield 17 kcal — the macro sum is used although it is far below the
raw figure and below 20. -/
theorem geometry_macros_unconditional_witness :
    (geometryPathItem [] c9Classifier).calories = 17 ∧
    c9Classifier.totalCalories = some 100 := by
  constructor
  · have h := (geometry_macros_unconditional [] c9Classifier).1
      { proteinG := 1, carbsG := 1, fatG := 1 } rfl
    exact h.trans (by decide)
  · rfl

/-! Claim C10: totality of the result normalizer on empty item lists. -/

/-- Claim C10: `mapToResult` is total (it is a Lean function); on an output
with no items it produces food type `"Food Item"`, confidence 0.6, calories
and weight 100 (the table defaults), the default emoji, no macros, and
analyzer source `"stub"` whenever `meta.used` is missing or empty. -/
theorem map_to_result_empty_items (meta : Option AnalyzeMeta) (h : metaUsedEmpty meta) :
    (mapToResult { items := [], meta := meta }).foodType = "Food Item" ∧
    (mapToResult { items := [], meta := meta }).confidence = 3/5 ∧
    (mapToResult { items := [], meta := meta }).calories = 100 ∧
    (mapToResult { items := [], meta := meta }).weight = 100 ∧
    (mapToResult { items := [], meta := meta }).emoji = "🍽️" ∧
    (mapToResult { items := [], meta := meta }).macros = none ∧
    (mapToResult { items := [], meta := meta }).analyzerSource = "stub" := by
  rcases meta with _ | mt
  · exact by decide
  · rcases mt with ⟨used, isFb⟩
    simp only [metaUsedEmpty] at h
    rcases h with hu | hu
    · subst hu
      rcases isFb with _ | b
      · exact by decide
      · rcases b with _ | _
        · exact by decide
        · exact by decide
    · subst hu
      rcases isFb with _ | b
      · exact by decide
      · rcases b with _ | _
        · exact by decide
        · exact by decide

/-- Claim C10 (witness): the empty output with no meta. -/
theorem map_to_result_empty_items_witness :
    (mapToResult { items := [], meta := none }).calories = 100 ∧
    (mapToResult { items := [], meta := none }).analyzerSource = "stub" := by
  have h := map_to_result_empty_items none trivial
  exact ⟨h.2.2.1, h.2.2.2.2.2.2⟩

/-! Claim C2: fallback chain metadata and failure aggregation. -/

/-- Characterization of a successful `runChain` run, generalized over the
accumulated attempt list. -/
theorem runChain_ok_spec :
    ∀ (chain : List (String × BackendResult)) (used : List String)
      (le : Option String) (out : AnalyzeOutput),
      runChain chain used le = Except.ok out →
      ∃ pre id b rest, chain = pre ++ (id, BackendResult.ok b) :: rest ∧
        (∀ p ∈ pre, p.2.isErr = true) ∧
        out.items = b.items ∧
        out.meta = some { used := some (used ++ pre.map Prod.fst ++ [id]),
                          isFallback :=
                            some (decide (1 < (used ++ pre.map Prod.fst ++ [id]).length)) } := by
  intro chain
  induction chain with
  | nil =>
    intro used le out h
    exact absurd h (by simp [runChain])
  | cons hd rest ih =>
    intro used le out h
    rcases hd with ⟨id, r⟩
    cases r with
    | ok b =>
      simp only [runChain] at h
      injection h with h2
      refine ⟨[], id, b, rest, rfl, by simp, ?_, ?_⟩
      · rw [← h2]
      · rw [← h2]
        simp
    | err msg =>
      have h2 := ih (used ++ [id]) (some msg) out h
      rcases h2 with ⟨pre, id2, b, rest2, hchain, hpre, hitems, hmeta⟩
      refine ⟨(id, BackendResult.err msg) :: pre, id2, b, rest2, by simp [hchain], ?_,
        hitems, ?_⟩
      · intro p hp
        rcases List.mem_cons.mp hp with rfl | hp2
        · rfl
        · exact hpre p hp2
      · rw [hmeta]
        have hlist : used ++ [id] ++ pre.map Prod.fst ++ [id2] =
            used ++ ((id, BackendResult.err msg) :: pre).map Prod.fst ++ [id2] := by
          simp [List.append_assoc]
        rw [hlist]

/-- When every backend of a nonempty chain fails, the run fails and the error
message carries the last backend error, with the falsy-string fallback to
the text "Unknown error" for an empty message. -/
theorem runChain_all_err :
    ∀ (chain : List (String × BackendResult)) (used : List String) (le : Option String),
      chain ≠ [] → (∀ p ∈ chain, p.2.isErr = true) →
      ∃ id msg, chain.getLast? = some (id, BackendResult.err msg) ∧
        runChain chain used le =
          Except.error ("All analyzers failed. Last error: " ++
            (if msg = "" then "Unknown error" else msg)) := by
  intro chain
  induction chain with
  | nil =>
    intro used le hne _
    exact absurd rfl hne
  | cons hd rest ih =>
    intro used le _ hall
    rcases hd with ⟨id, r⟩
    cases r with
    | ok b =>
      have hh := hall (id, BackendResult.ok b) (List.mem_cons_self _ _)
      simp [BackendResult.isErr] at hh
    | err msg =>
      cases rest with
      | nil => exact ⟨id, msg, rfl, rfl⟩
      | cons hd2 rest2 =>
        have h2 := ih (used ++ [id]) (some msg) (by simp)
          (fun p hp => hall p (List.mem_cons_of_mem _ hp))
        rcases h2 with ⟨id2, m2, hlast, hrun⟩
        refine ⟨id2, m2, ?_, hrun⟩
        rw [← hlast]
        exact List.getLast?_cons_cons

/-- Claim C2: when the chain returns a result, `meta.used` lists exactly the
backends attempted, in order, including the failed ones; it is nonempty, and
`meta.isFallback` holds exactly when more than one backend was attempted.
When every backend of a nonempty chain fails, the whole call fails with an
aggregate error carrying the last backend error message, or the text
"Unknown error" when that message is empty. -/
theorem fallback_chain_meta (chain : List (String × BackendResult)) :
    (∀ out, analyzeViaDirectAnalyzers chain = Except.ok out →
      ∃ pre id b rest, chain = pre ++ (id, BackendResult.ok b) :: rest ∧
        (∀ p ∈ pre, p.2.isErr = true) ∧
        out.items = b.items ∧
        out.meta = some { used := some (pre.map Prod.fst ++ [id]),
                          isFallback := some (decide (1 < pre.length + 1)) } ∧
        1 ≤ (pre.map Prod.fst ++ [id]).length) ∧
    (chain ≠ [] → (∀ p ∈ chain, p.2.isErr = true) →
      ∃ id msg, chain.getLast? = some (id, BackendResult.err msg) ∧
        analyzeViaDirectAnalyzers chain =
          Except.error ("All analyzers failed. Last error: " ++
            (if msg = "" then "Unknown error" else msg))) := by
  constructor
  · intro out h
    rcases runChain_ok_spec chain [] none out h with
      ⟨pre, id, b, rest, hchain, hpre, hitems, hmeta⟩
    refine ⟨pre, id, b, rest, hchain, hpre, hitems, ?_, by simp⟩
    rw [hmeta]
    have hlist : ([] : List String) ++ pre.map Prod.fst ++ [id] = pre.map Prod.fst ++ [id] := by
      simp
    rw [hlist]
    have hlen : (pre.map Prod.fst ++ [id]).length = pre.length + 1 := by simp
    rw [hlen]
  · intro hne hall
    exact runChain_all_err chain [] none hne hall

/-- Claim C2 (witness): two failures before the stub produce
`used = [supabase, openai, stub]` with `isFallback = true`; a chain of only
failures aggregates the last error message. -/
theorem fallback_chain_meta_witness :
    (∃ pre id b rest, c2Chain = pre ++ (id, BackendResult.ok b) :: rest ∧
      (∀ p ∈ pre, p.2.isErr = true) ∧
      c2Out.items = b.items ∧
      c2Out.meta = some { used := some (pre.map Prod.fst ++ [id]),
                          isFallback := some (decide (1 < pre.length + 1)) } ∧
      1 ≤ (pre.map Prod.fst ++ [id]).length) ∧
    (∃ id msg, c2FailChain.getLast? = some (id, BackendResult.err msg) ∧
      analyzeViaDirectAnalyzers c2FailChain =
        Except.error ("All analyzers failed. Last error: " ++
          (if msg = "" then "Unknown error" else msg))) := by
  constructor
  · exact (fallback_chain_meta c2Chain).1 c2Out rfl
  · exact (fallback_chain_meta c2FailChain).2 (by decide) (by decide)

/-- Claim C2 (counterexample): when the last backend failure carries the
empty message, the aggregate error says "Unknown error" instead of carrying
the last backend error message, because of the falsy-string fallback in
`lastError?.message || "Unknown error"`. -/
theorem fallback_chain_counterexample :
    (∀ p ∈ c2EmptyMsgChain, p.2.isErr = true) ∧
    c2EmptyMsgChain.getLast? = some ("openai", BackendResult.err "") ∧
    analyzeViaDirectAnalyzers c2EmptyMsgChain =
      Except.error "All analyzers failed. Last error: Unknown error" ∧
    "All analyzers failed. Last error: Unknown error" ≠
      "All analyzers failed. Last error: " ++ "" :=
  ⟨by decide, by decide, rfl, by decide⟩

/-! Claim C8: the HTTP error contract of the edge function. -/

/-- Claim C8 (counterexample): a request whose body contains `imageUrl` with
the empty string is still answered with status 400, because the check uses
JavaScript truthiness, refuting the claim that 400 is returned exactly when
the body contains neither field. -/
theorem http_contract_counterexample :
    c8Req.imageUrl ≠ none ∧
    (serve [] (Except.ok c8Req) c8Detect c8Nutrition (Except.error "menu down")
        (Except.error "classifier down")).status = 400 := by decide

/-- Claim C8 (amended): the endpoint returns 400 with body
`{error: "Provide imageUrl or imageBase64"}` exactly when neither a nonempty
`imageUrl` nor a nonempty `imageBase64` is supplied (at least one nonempty
reference required; both may be present), 500 with
`{error: "Analyzer error", details}` on every internal failure, and 200 with
an analyzer response otherwise. -/
theorem http_error_contract (store : List (String × FoodPriors))
    (pb : Except String AnalyzerRequest) (d : Except String ImageTypeResponse)
    (l : Except String NutritionData) (m : Except String MenuData)
    (c : Except String ClassifierResponse) :
    ((serve store pb d l m c).status = 400 ∨ (serve store pb d l m c).status = 500 ∨
      (serve store pb d l m c).status = 200) ∧
    ((serve store pb d l m c).status = 400 ↔
      ∃ req, pb = Except.ok req ∧ sTruthy req.imageUrl = false ∧
        sTruthy req.imageBase64 = false) ∧
    ((serve store pb d l m c).status = 400 →
      (serve store pb d l m c).body = HttpBody.errBody "Provide imageUrl or imageBase64" none) ∧
    ((serve store pb d l m c).status = 500 →
      ∃ det, (serve store pb d l m c).body = HttpBody.errBody "Analyzer error" (some det)) ∧
    ((serve store pb d l m c).status = 200 →
      ∃ resp, (serve store pb d l m c).body = HttpBody.okBody resp) ∧
    (∀ req, pb = Except.ok req → hasImage req →
      ((serve store pb d l m c).status = 200 ↔ pathOracleOk d l m c)) := by
  rcases pb with e | req
  · have hs : serve store (Except.error e) d l m c =
        ⟨500, HttpBody.errBody "Analyzer error" (some e)⟩ := rfl
    rw [hs]
    refine ⟨Or.inr (Or.inl rfl), ?_, ?_, ?_, ?_, ?_⟩
    · constructor
      · intro h
        simp at h
      · rintro ⟨req, hreq, -, -⟩
        exact Except.noConfusion hreq
    · intro h
      simp at h
    · intro _
      exact ⟨e, rfl⟩
    · intro h
      simp at h
    · intro req hreq _
      exact Except.noConfusion hreq
  · by_cases himg : (!sTruthy req.imageUrl && !sTruthy req.imageBase64) = true
    · have hf : sTruthy req.imageUrl = false ∧ sTruthy req.imageBase64 = false := by
        simpa [Bool.and_eq_true, Bool.not_eq_true_eq_eq_false] using himg
      have hs : serve store (Except.ok req) d l m c =
          ⟨400, HttpBody.errBody "Provide imageUrl or imageBase64" none⟩ := by
        simp [serve, himg]
      rw [hs]
      refine ⟨Or.inl rfl, ?_, ?_, ?_, ?_, ?_⟩
      · exact iff_of_true rfl ⟨req, rfl, hf.1, hf.2⟩
      · intro _
        rfl
      · intro h
        simp at h
      · intro h
        simp at h
      · intro req2 hreq2 himg2
        injection hreq2 with h3
        subst h3
        rcases himg2 with h | h
        · rw [hf.1] at h
          simp at h
        · rw [hf.2] at h
          simp at h
    · have himgf : (!sTruthy req.imageUrl && !sTruthy req.imageBase64) = false :=
        Bool.eq_false_iff.mpr himg
      have hnotboth : ¬(sTruthy req.imageUrl = false ∧ sTruthy req.imageBase64 = false) := by
        rintro ⟨h1, h2⟩
        rw [h1, h2] at himgf
        simp at himgf
      rcases d with e | ty
      · have hs : serve store (Except.ok req) (Except.error e) l m c =
            ⟨500, HttpBody.errBody "Analyzer error" (some e)⟩ := by
          simp [serve, himgf]
        rw [hs]
        refine ⟨Or.inr (Or.inl rfl), ?_, ?_, ?_, ?_, ?_⟩
        · constructor
          · intro h
            simp at h
          · rintro ⟨req2, hreq2, h1, h2⟩
            injection hreq2 with h3
            subst h3
            exact absurd ⟨h1, h2⟩ hnotboth
        · intro h
          simp at h
        · intro _
          exact ⟨e, rfl⟩
        · intro h
          simp at h
        · intro req2 hreq2 _
          exact iff_of_false (by simp) (by simp [pathOracleOk])
      · by_cases hpack : ty.imageType = ImType.packaged
        · rcases l with e | nd
          · have hs : serve store (Except.ok req) (Except.ok ty) (Except.error e) m c =
                ⟨500, HttpBody.errBody "Analyzer error" (some e)⟩ := by
              simp [serve, himgf, hpack]
            rw [hs]
            refine ⟨Or.inr (Or.inl rfl), ?_, ?_, ?_, ?_, ?_⟩
            · constructor
              · intro h
                simp at h
              · rintro ⟨req2, hreq2, h1, h2⟩
                injection hreq2 with h3
                subst h3
                exact absurd ⟨h1, h2⟩ hnotboth
            · intro h
              simp at h
            · intro _
              exact ⟨e, rfl⟩
            · intro h
              simp at h
            · intro req2 hreq2 _
              exact iff_of_false (by simp) (by simp [pathOracleOk, hpack, Except.isOk, Except.toBool])
          · have hs : serve store (Except.ok req) (Except.ok ty) (Except.ok nd) m c =
                ⟨200, HttpBody.okBody (labelPathResponse store nd)⟩ := by
              simp [serve, himgf, hpack]
            rw [hs]
            refine ⟨Or.inr (Or.inr rfl), ?_, ?_, ?_, ?_, ?_⟩
            · constructor
              · intro h
                simp at h
              · rintro ⟨req2, hreq2, h1, h2⟩
                injection hreq2 with h3
                subst h3
                exact absurd ⟨h1, h2⟩ hnotboth
            · intro h
              simp at h
            · intro h
              simp at h
            · intro _
              exact ⟨labelPathResponse store nd, rfl⟩
            · intro req2 hreq2 _
              exact iff_of_true rfl (by simp [pathOracleOk, hpack, Except.isOk, Except.toBool])
        · by_cases hrest : ty.imageType = ImType.restaurant ∧ sTruthy ty.restaurantName = true
          · rcases m with e | md
            · have hs : serve store (Except.ok req) (Except.ok ty) l (Except.error e) c =
                  ⟨500, HttpBody.errBody "Analyzer error" (some e)⟩ := by
                simp [serve, himgf, hpack, hrest]
              rw [hs]
              refine ⟨Or.inr (Or.inl rfl), ?_, ?_, ?_, ?_, ?_⟩
              · constructor
                · intro h
                  simp at h
                · rintro ⟨req2, hreq2, h1, h2⟩
                  injection hreq2 with h3
                  subst h3
                  exact absurd ⟨h1, h2⟩ hnotboth
              · intro h
                simp at h
              · intro _
                exact ⟨e, rfl⟩
              · intro h
                simp at h
              · intro req2 hreq2 _
                exact iff_of_false (by simp)
                  (by simp [pathOracleOk, hpack, hrest, Except.isOk, Except.toBool])
            · have hs : serve store (Except.ok req) (Except.ok ty) l (Except.ok md) c =
                  ⟨200, HttpBody.okBody (menuPathResponse store md)⟩ := by
                simp [serve, himgf, hpack, hrest]
              rw [hs]
              refine ⟨Or.inr (Or.inr rfl), ?_, ?_, ?_, ?_, ?_⟩
              · constructor
                · intro h
                  simp at h
                · rintro ⟨req2, hreq2, h1, h2⟩
                  injection hreq2 with h3
                  subst h3
                  exact absurd ⟨h1, h2⟩ hnotboth
              · intro h
                simp at h
              · intro h
                simp at h
              · intro _
                exact ⟨menuPathResponse store md, rfl⟩
              · intro req2 hreq2 _
                exact iff_of_true rfl (by simp [pathOracleOk, hpack, hrest, Except.isOk, Except.toBool])
          · rcases c with e | cr
            · have hs : serve store (Except.ok req) (Except.ok ty) l m (Except.error e) =
                  ⟨500, HttpBody.errBody "Analyzer error" (some e)⟩ := by
                simp [serve, himgf, hpack, hrest]
              rw [hs]
              refine ⟨Or.inr (Or.inl rfl), ?_, ?_, ?_, ?_, ?_⟩
              · constructor
                · intro h
                  simp at h
                · rintro ⟨req2, hreq2, h1, h2⟩
                  injection hreq2 with h3
                  subst h3
                  exact absurd ⟨h1, h2⟩ hnotboth
              · intro h
                simp at h
              · intro _
                exact ⟨e, rfl⟩
              · intro h
                simp at h
              · intro req2 hreq2 _
                exact iff_of_false (by simp)
                  (by simp [pathOracleOk, hpack, hrest, Except.isOk, Except.toBool])
            · have hs : serve store (Except.ok req) (Except.ok ty) l m (Except.ok cr) =
                  ⟨200, HttpBody.okBody (geometryPathResponse store cr)⟩ := by
                simp [serve, himgf, hpack, hrest]
              rw [hs]
              refine ⟨Or.inr (Or.inr rfl), ?_, ?_, ?_, ?_, ?_⟩
              · constructor
                · intro h
                  simp at h
                · rintro ⟨req2, hreq2, h1, h2⟩
                  injection hreq2 with h3
                  subst h3
                  exact absurd ⟨h1, h2⟩ hnotboth
              · intro h
                simp at h
              · intro h
                simp at h
              · intro _
                exact ⟨geometryPathResponse store cr, rfl⟩
              · intro req2 hreq2 _
                exact iff_of_true rfl (by simp [pathOracleOk, hpack, hrest, Except.isOk, Except.toBool])

/-- Claim C8 (witness): a request with a nonempty image URL whose path oracle
succeeds is answered 200, and a request with only an empty-string reference
is answered 400. -/
theorem http_error_contract_witness :
    (serve [] (Except.ok c8GoodReq) c8Detect c8Nutrition (Except.error "menu down")
        (Except.error "classifier down")).status = 200 ∧
    (serve [] (Except.ok c8Req) c8Detect c8Nutrition (Except.error "menu down")
        (Except.error "classifier down")).status = 400 := by
  constructor
  · exact ((http_error_contract [] (Except.ok c8GoodReq) c8Detect c8Nutrition
      (Except.error "menu down") (Except.error "classifier down")).2.2.2.2.2 c8GoodReq rfl
      (Or.inl (by decide))).mpr (by simp [pathOracleOk, c8Detect, Except.isOk, Except.toBool, c8Nutrition])
  · exact (http_error_contract [] (Except.ok c8Req) c8Detect c8Nutrition
      (Except.error "menu down") (Except.error "classifier down")).2.1.mpr
      ⟨c8Req, rfl, by decide, by decide⟩

end HabitPet
